import Mathlib

/-!
Shallow embedding of the meowith-connector-nodejs client library.

The repository is a thin typed HTTP client: an API accessor
(src/api-access.ts, `MeowithApiAccessor`) with one method per remote
endpoint, a connector facade (src/connector.ts, `MeowithConnector`) that
binds application and bucket identifiers, entity type definitions
(entity.ts) and an error-normalization helper (error.ts, `handleError`).

Modelling conventions:
  - The configured axios instance is modelled as a `Transport` oracle: a
    function from the request an operation builds (method, url, headers,
    body) to either a response or a thrown transport failure.  Each
    operation of the accessor builds its request exactly as the source
    interpolates its URL template and body, hands it to the transport,
    and post-processes the outcome exactly as the source does inside its
    try/catch block.
  - A thrown JavaScript value is `TransportError`: either a plain Error
    (`basic`, carrying its message) or an axios error with an optional
    response whose body optionally carries a `code` field.  An absent or
    falsy body is modelled as `none`.
  - The TS tuple type `Result<T> = [T, undefined] | [undefined, ConnectorError]`
    is modelled positionally as `Option T × Option ConnectorError`, with
    `none` standing for `undefined` in a slot.
  - TS `number` fields that the code only ever interpolates or passes
    through (range bounds, sizes, counts) are modelled as `Nat`; the
    result of `parseInt` is `Option Int` with `none` standing for `NaN`.
  - `Date` values are modelled as `JsDate := Option Int`, the time value
    in milliseconds since the epoch (`none` = Invalid Date).  `new Date(s)`
    on the ISO-8601 strings the server sends is modelled by a Gregorian
    calendar parser for `YYYY-MM-DDTHH:MM:SS(.mmm)?(Z)?`, taken as UTC.
  - The TS field `end` of `Range` is named `stop` here (`end` is a Lean
    keyword); `start` keeps its name.
-/

namespace Meowith

/-- JSON-representable primitive values appearing in request bodies. -/
inductive JsonVal where
  | str (s : String)
  | num (n : Nat)
  | bool (b : Bool)
  deriving DecidableEq, Repr

/-- A request body: absent, a JSON object given as its field list (a field
whose value is `undefined` is omitted, as JSON serialization drops it), or a
raw payload stream. -/
inductive ReqBody where
  | empty
  | json (fields : List (String × JsonVal))
  | raw (data : String)
  deriving DecidableEq, Repr

/-- The request an accessor operation hands to the configured axios
instance: method, interpolated relative URL, per-request headers, body. -/
structure HttpRequest where
  method : String
  url : String
  headers : List (String × String)
  body : ReqBody
  deriving DecidableEq, Repr

/-- Structured response body of a failed request; `code` is the optional
error-code field (`e.response.data.code`). `none` models an absent or falsy
value. -/
structure ErrorBody where
  code : Option String
  deriving DecidableEq, Repr

/-- The `response` object attached to an axios error; `data` is its body,
`none` modelling an absent or falsy body. -/
structure AxiosResponse where
  data : Option ErrorBody
  deriving DecidableEq, Repr

/-- An axios transport failure: its message and its optional response. -/
structure AxiosFailure where
  message : String
  response : Option AxiosResponse
  deriving DecidableEq, Repr

/-- A value thrown inside an operation body: a plain `Error` (carrying its
message) or an axios error (`isAxiosError` distinguishes the two). -/
inductive TransportError where
  | basic (message : String)
  | axios (failure : AxiosFailure)
  deriving DecidableEq, Repr

/-- The `message` property of the thrown value. -/
def TransportError.message : TransportError → String
  | .basic m => m
  | .axios f => f.message

/-- error.ts, `ConnectorError extends Error`: wraps the normalized error
kind (`apiError`, a string of the `NodeClientError` enum at runtime) and the
original thrown value (`jsError`). -/
structure ConnectorError where
  apiError : String
  jsError : TransportError
  message : String
  name : String
  deriving DecidableEq, Repr

/-- The `ConnectorError` constructor: sets the Error message from the kind
and the wrapped failure, and the name to "ConnectorError". -/
def mkConnectorError (apiError : String) (jsError : TransportError) : ConnectorError :=
  { apiError := apiError
  , jsError := jsError
  , message := "Connector Error: " ++ apiError ++ " | " ++ jsError.message
  , name := "ConnectorError" }

/-- The string values of the `NodeClientError` enum in error.ts. -/
def nodeClientErrorValues : List String :=
  [ "InternalError", "BadRequest", "NotFound", "EntityExists", "NoSuchSession"
  , "BadAuth", "InsufficientStorage", "NotEmpty", "RangeUnsatisfiable"
  , "LocalInternalError" ]

/-- error.ts, `Result<T> = [T, undefined] | [undefined, ConnectorError]`,
modelled positionally with `none` for `undefined`. -/
abbrev Result (T : Type) : Type := Option T × Option ConnectorError

/-- error.ts, `handleError`: if the thrown value is an axios error with a
truthy response body, surface `data.code` when truthy (falling back to
`"LocalInternalError"` when the field is absent or falsy); otherwise
classify as `"LocalInternalError"`.  Either way the original thrown value is
wrapped in a `ConnectorError`. -/
def handleError {T : Type} (e : TransportError) : Result T :=
  match e with
  | .axios f =>
    match f.response with
    | some resp =>
      match resp.data with
      | some body =>
        match body.code with
        | some c =>
          (none, some (mkConnectorError (if c = "" then "LocalInternalError" else c) e))
        | none => (none, some (mkConnectorError "LocalInternalError" e))
      | none => (none, some (mkConnectorError "LocalInternalError" e))
    | none => (none, some (mkConnectorError "LocalInternalError" e))
  | .basic _ => (none, some (mkConnectorError "LocalInternalError" e))

/-- The first slot of a normalized failure is always `undefined`. -/
theorem handleError_fst {T : Type} (e : TransportError) :
    ((handleError e : Result T)).1 = none := by
  cases e with
  | basic m => rfl
  | axios f =>
    obtain ⟨m, ro⟩ := f
    cases ro with
    | none => rfl
    | some resp =>
      obtain ⟨d⟩ := resp
      cases d with
      | none => rfl
      | some body =>
        obtain ⟨co⟩ := body
        cases co with
        | none => rfl
        | some c => rfl

/-- api-access.ts, `type Range`: a union of a closed range, a start-only
range and an end-only range; the TS field `end` is called `stop` here. The
field being present in the union member is modelled by `Option.isSome`. -/
structure Range where
  start : Option Nat
  stop : Option Nat
  deriving DecidableEq, Repr

/-- api-access.ts, `constructRangeHeader`: serialize a `Range` for the HTTP
Range header, throwing `Error("Invalid range object")` when neither field is
present (the throw is modelled by `Except.error` carrying the message). -/
def constructRangeHeader (range : Range) : Except String String :=
  match range.start, range.stop with
  | some s, some e => .ok ("bytes=" ++ toString s ++ "-" ++ toString e)
  | some s, none => .ok ("bytes=" ++ toString s ++ "-")
  | none, some e => .ok ("bytes=-" ++ toString e)
  | none, none => .error "Invalid range object"

/-- api-access.ts, `constructPaginationQuery`: serialize an optional `Range`
as listing query parameters; the start-only form keeps a literal trailing
hyphen, and both the absent range and the empty range serialize to "". -/
def constructPaginationQuery (range : Option Range) : String :=
  match range with
  | none => ""
  | some r =>
    match r.start, r.stop with
    | some s, some e => "?start=" ++ toString s ++ "&end=" ++ toString e
    | some s, none => "?start=" ++ toString s ++ "-"
    | none, some e => "?end=" ++ toString e
    | none, none => ""

/-- Numeric value of a decimal digit character. -/
def digitVal (c : Char) : Nat := c.toNat - 48

/-- Value of a list of decimal digit characters. -/
def digitsToNat (l : List Char) : Nat := l.foldl (fun a c => a * 10 + digitVal c) 0

/-- Split a character list into its longest prefix of decimal digits and the
remainder. -/
def takeDigits : List Char → List Char × List Char
  | [] => ([], [])
  | c :: cs =>
    if c.isDigit then
      let p := takeDigits cs
      (c :: p.1, p.2)
    else ([], c :: cs)

/-- JavaScript `parseInt` restricted to base 10: skip leading whitespace,
read an optional sign and then leading decimal digits; `none` models `NaN`
(no leading digit). -/
def parseIntJs (s : String) : Option Int :=
  let trimmed := s.toList.dropWhile (fun c => c = ' ' || c = '\t' || c = '\n' || c = '\r')
  match trimmed with
  | '-' :: rest =>
    let p := takeDigits rest
    if p.1.isEmpty then none else some (-(digitsToNat p.1 : Int))
  | '+' :: rest =>
    let p := takeDigits rest
    if p.1.isEmpty then none else some ((digitsToNat p.1 : Int))
  | rest =>
    let p := takeDigits rest
    if p.1.isEmpty then none else some ((digitsToNat p.1 : Int))

/-- Everything after the first occurrence of `pattern` in `target`; `none`
when the pattern does not occur.  Models the left-to-right scan of a regex
for the literal pattern. -/
def afterFirst (pattern : List Char) : List Char → Option (List Char)
  | [] => if pattern = [] then some [] else none
  | c :: cs =>
    if pattern.isPrefixOf (c :: cs) then some ((c :: cs).drop pattern.length)
    else afterFirst pattern cs

/-- Index of the last double-quote character in the list, if any. -/
def lastQuoteIdx : List Char → Option Nat
  | [] => none
  | c :: cs =>
    match lastQuoteIdx cs with
    | some i => some (i + 1)
    | none => if c = '"' then some 0 else none

/-- The prefix strictly before the last double-quote, when that capture is
nonempty; models the greedy `(.+)` capture of the filename regex. -/
def captureToLastQuote (l : List Char) : Option (List Char) :=
  match lastQuoteIdx l with
  | some i => if 1 ≤ i then some (l.take i) else none
  | none => none

/-- api-access.ts download parsing: the capture group of matching the
Content-Disposition header value against the regex for
filename="(.+)" — everything after the first occurrence of the literal
prefix, greedily up to the last quote; `none` models a null match (whose
dereference throws). -/
def matchFilename (s : String) : Option String :=
  match afterFirst "filename=\"".toList s.toList with
  | none => none
  | some rest =>
    match captureToLastQuote rest with
    | none => none
    | some cap => some (String.mk cap)

/-- Days since 1970-01-01 of the Gregorian date y-m-d (civil-from-days
algorithm; integer division here truncates toward zero and the era shift
keeps every operand of the inner divisions nonnegative, as the algorithm
requires). -/
def daysFromCivil (y m d : Int) : Int :=
  let yAdj := if m ≤ 2 then y - 1 else y
  let era := (if 0 ≤ yAdj then yAdj else yAdj - 399) / 400
  let yoe := yAdj - era * 400
  let mp := (m + 9) % 12
  let doy := (153 * mp + 2) / 5 + d - 1
  let doe := yoe * 365 + yoe / 4 - yoe / 100 + doy
  era * 146097 + doe - 719468

/-- Gregorian leap-year test. -/
def isLeap (y : Int) : Bool := (y % 4 == 0 && y % 100 != 0) || y % 400 == 0

/-- Number of days in a month of a given year. -/
def daysInMonth (y m : Int) : Int :=
  if m = 2 then (if isLeap y then 29 else 28)
  else if m = 4 ∨ m = 6 ∨ m = 9 ∨ m = 11 then 30
  else 31

/-- Parse the optional fraction-and-zone tail of an ISO-8601 timestamp:
accepts "", "Z", ".mmm" and ".mmmZ" (three fraction digits), returning the
millisecond part. -/
def parseIsoTail (rest : List Char) : Option Int :=
  match rest with
  | [] => some 0
  | ['Z'] => some 0
  | '.' :: more =>
    let p := takeDigits more
    if p.1.length = 3 && (p.2 = [] || p.2 = ['Z']) then some ((digitsToNat p.1 : Nat) : Int)
    else none
  | _ => none

/-- Parse an ISO-8601 UTC timestamp "YYYY-MM-DDTHH:MM:SS(.mmm)?(Z)?" into
milliseconds since the epoch, validating calendar field ranges; `none`
models an Invalid Date. -/
def parseISO8601 (s : String) : Option Int :=
  match s.toList with
  | y1 :: y2 :: y3 :: y4 :: '-' :: m1 :: m2 :: '-' :: d1 :: d2 :: 'T'
      :: h1 :: h2 :: ':' :: i1 :: i2 :: ':' :: s1 :: s2 :: rest =>
    if y1.isDigit && y2.isDigit && y3.isDigit && y4.isDigit && m1.isDigit && m2.isDigit
        && d1.isDigit && d2.isDigit && h1.isDigit && h2.isDigit && i1.isDigit && i2.isDigit
        && s1.isDigit && s2.isDigit then
      let y : Int := (digitsToNat [y1, y2, y3, y4] : Nat)
      let mo : Int := (digitsToNat [m1, m2] : Nat)
      let da : Int := (digitsToNat [d1, d2] : Nat)
      let ho : Int := (digitsToNat [h1, h2] : Nat)
      let mi : Int := (digitsToNat [i1, i2] : Nat)
      let se : Int := (digitsToNat [s1, s2] : Nat)
      match parseIsoTail rest with
      | none => none
      | some ms =>
        if 1 ≤ mo ∧ mo ≤ 12 ∧ 1 ≤ da ∧ da ≤ daysInMonth y mo ∧ ho ≤ 23 ∧ mi ≤ 59 ∧ se ≤ 59 then
          some ((daysFromCivil y mo da * 86400 + ho * 3600 + mi * 60 + se) * 1000 + ms)
        else none
    else none
  | _ => none

/-- A JavaScript `Date` reduced to its time value: milliseconds since the
epoch, `none` modelling an Invalid Date (NaN time value). -/
abbrev JsDate : Type := Option Int

/-- `new Date(s)` on the ISO strings the server sends. -/
def newDate (s : String) : JsDate := parseISO8601 s

/-- entity.ts, `RawEntity`: an entity as received from the api, timestamps
as ISO strings. -/
structure RawEntity where
  name : String
  dir : Option String
  dir_id : Option String
  size : Nat
  is_dir : Bool
  created : String
  last_modified : String
  deriving DecidableEq, Repr

/-- entity.ts, `Entity`: the client-side form, timestamps as `Date`s. -/
structure Entity where
  name : String
  dir : Option String
  dir_id : Option String
  size : Nat
  is_dir : Bool
  created : JsDate
  last_modified : JsDate
  deriving DecidableEq, Repr

/-- The per-element normalization the list and stat operations apply:
spread the wire entity and replace the two timestamp strings by `Date`
values. -/
def convertEntity (x : RawEntity) : Entity :=
  { name := x.name, dir := x.dir, dir_id := x.dir_id, size := x.size, is_dir := x.is_dir
  , created := newDate x.created, last_modified := newDate x.last_modified }

/-- entity.ts, `RawEntityList`. -/
structure RawEntityList where
  entities : List RawEntity
  deriving DecidableEq, Repr

/-- entity.ts, `UploadSessionInfo`: session code, validity in seconds,
bytes already uploaded. -/
structure UploadSessionInfo where
  code : String
  validity : Nat
  uploaded : Nat
  deriving DecidableEq, Repr

/-- entity.ts, `UploadSessionResumeResponse`: the resume variant, keeping
only the uploaded-byte count. -/
structure UploadSessionResumeResponse where
  uploaded : Nat
  deriving DecidableEq, Repr

/-- The content of a streamed body, reduced to its byte string. -/
abbrev StreamData : Type := String

/-- entity.ts, `FileEntity`: the payload of a successful download.  `size`
is the `parseInt` result (`none` = NaN), `mime` is the raw header value
(`none` = header absent), `content` the response body stream. -/
structure FileEntity where
  size : Option Int
  name : String
  mime : Option String
  content : StreamData
  deriving DecidableEq, Repr

/-- api-access.ts, `BucketId`. -/
structure BucketId where
  appId : String
  bucketId : String
  deriving DecidableEq, Repr

/-- api-access.ts, `Resource = BucketId & \x7b path \x7d`. -/
structure Resource extends BucketId where
  path : String
  deriving DecidableEq, Repr

/-- A successful HTTP exchange: response headers and typed body (the source
casts `response.data` without runtime validation, so the transport is typed
at each operation's expected wire shape). -/
structure HttpResponse (D : Type) where
  headers : List (String × String)
  data : D
  deriving DecidableEq, Repr

/-- The configured axios instance, as seen by one operation: a function
from the request the operation builds to either a response or a thrown
failure. -/
abbrev Transport (D : Type) : Type := HttpRequest → Except TransportError (HttpResponse D)

/-- Request of `downloadFile`: GET with the interpolated download URL and
the optional already-serialized Range header. -/
def downloadFileRequest (resource : Resource) (rangeHeader : Option String) : HttpRequest :=
  { method := "GET"
  , url := "/api/file/download/" ++ resource.appId ++ "/" ++ resource.bucketId ++ "/" ++ resource.path
  , headers := match rangeHeader with | some h => [("Range", h)] | none => []
  , body := .empty }

/-- The fetch-and-parse part of `downloadFile`, after the Range header has
been built: issue the request, then read size, filename and mime from the
response headers.  `Except.error` carries any value thrown on this path —
the transport rejection, the dereference of an absent Content-Disposition
header, or the dereference of a null regex match. -/
def downloadFileFetch (t : Transport StreamData) (resource : Resource)
    (rangeHeader : Option String) : Except TransportError (Result FileEntity) :=
  match t (downloadFileRequest resource rangeHeader) with
  | .error e => .error e
  | .ok response =>
    match response.headers.lookup "Content-Disposition" with
    | none => .error (.basic "TypeError: cannot read match of undefined")
    | some cd =>
      match matchFilename cd with
      | none => .error (.basic "TypeError: cannot index a null match")
      | some nm =>
        .ok
          ( some
            { size := match response.headers.lookup "Content-Length" with
                | some cl => parseIntJs cl
                | none => none
            , name := nm
            , mime := response.headers.lookup "Content-Type"
            , content := response.data }
          , none )

/-- The whole try-block of `downloadFile`: serialize the Range header when
a range was supplied (its throw propagates into the catch), then fetch. -/
def downloadFileAttempt (t : Transport StreamData) (resource : Resource)
    (range : Option Range) : Except TransportError (Result FileEntity) :=
  match range with
  | none => downloadFileFetch t resource none
  | some r =>
    match constructRangeHeader r with
    | .error msg => .error (.basic msg)
    | .ok h => downloadFileFetch t resource (some h)

/-- api-access.ts, `MeowithApiAccessor.downloadFile`: the try-block above
with every thrown value routed through `handleError`. -/
def MeowithApiAccessor.downloadFile (t : Transport StreamData) (resource : Resource)
    (range : Option Range) : Result FileEntity :=
  match downloadFileAttempt t resource range with
  | .ok r => r
  | .error e => handleError e

/-- Request of `uploadFile`: POST the raw payload with a Content-Length
header. -/
def uploadFileRequest (resource : Resource) (data : StreamData) (size : Nat) : HttpRequest :=
  { method := "POST"
  , url := "/api/file/upload/oneshot/" ++ resource.appId ++ "/" ++ resource.bucketId ++ "/" ++ resource.path
  , headers := [("Content-Length", toString size)]
  , body := .raw data }

/-- api-access.ts, `MeowithApiAccessor.uploadFile`. -/
def MeowithApiAccessor.uploadFile (t : Transport Unit) (resource : Resource)
    (data : StreamData) (size : Nat) : Result Unit :=
  match t (uploadFileRequest resource data size) with
  | .ok _ => (none, none)
  | .error e => handleError e

/-- Request of `startUploadSession`: POST the JSON body with the size to
the oneshot endpoint. -/
def startUploadSessionRequest (resource : Resource) (size : Nat) : HttpRequest :=
  { method := "POST"
  , url := "/api/file/upload/oneshot/" ++ resource.appId ++ "/" ++ resource.bucketId ++ "/" ++ resource.path
  , headers := []
  , body := .json [("size", JsonVal.num size)] }

/-- api-access.ts, `MeowithApiAccessor.startUploadSession`: the response
body is returned verbatim as the session info. -/
def MeowithApiAccessor.startUploadSession (t : Transport UploadSessionInfo)
    (resource : Resource) (size : Nat) : Result UploadSessionInfo :=
  match t (startUploadSessionRequest resource size) with
  | .ok resp => (some resp.data, none)
  | .error e => handleError e

/-- Request of `putFile`: PUT the raw chunk under the session code. -/
def putFileRequest (bucketId : BucketId) (session : UploadSessionInfo)
    (data : StreamData) : HttpRequest :=
  { method := "PUT"
  , url := "/api/file/upload/put/" ++ bucketId.appId ++ "/" ++ bucketId.bucketId ++ "/" ++ session.code
  , headers := []
  , body := .raw data }

/-- api-access.ts, `MeowithApiAccessor.putFile`. -/
def MeowithApiAccessor.putFile (t : Transport Unit) (bucketId : BucketId)
    (session : UploadSessionInfo) (data : StreamData) : Result Unit :=
  match t (putFileRequest bucketId session data) with
  | .ok _ => (none, none)
  | .error e => handleError e

/-- Request of `resumeUploadSession`: POST the session code as session_id. -/
def resumeUploadSessionRequest (bucketId : BucketId) (session : UploadSessionInfo) : HttpRequest :=
  { method := "POST"
  , url := "/api/file/upload/resume/" ++ bucketId.appId ++ "/" ++ bucketId.bucketId
  , headers := []
  , body := .json [("session_id", JsonVal.str session.code)] }

/-- api-access.ts, `MeowithApiAccessor.resumeUploadSession`. -/
def MeowithApiAccessor.resumeUploadSession (t : Transport UploadSessionResumeResponse)
    (bucketId : BucketId) (session : UploadSessionInfo) : Result UploadSessionResumeResponse :=
  match t (resumeUploadSessionRequest bucketId session) with
  | .ok resp => (some resp.data, none)
  | .error e => handleError e

/-- Request of `renameFile`: POST the JSON body with the target name. -/
def renameFileRequest (resource : Resource) («to» : String) : HttpRequest :=
  { method := "POST"
  , url := "/api/file/rename/" ++ resource.appId ++ "/" ++ resource.bucketId ++ "/" ++ resource.path
  , headers := []
  , body := .json [("to", JsonVal.str «to»)] }

/-- api-access.ts, `MeowithApiAccessor.renameFile`. -/
def MeowithApiAccessor.renameFile (t : Transport Unit) (resource : Resource)
    («to» : String) : Result Unit :=
  match t (renameFileRequest resource «to») with
  | .ok _ => (none, none)
  | .error e => handleError e

/-- Request of `renameDirectory`. -/
def renameDirectoryRequest (resource : Resource) («to» : String) : HttpRequest :=
  { method := "POST"
  , url := "/api/directory/rename/" ++ resource.appId ++ "/" ++ resource.bucketId ++ "/" ++ resource.path
  , headers := []
  , body := .json [("to", JsonVal.str «to»)] }

/-- api-access.ts, `MeowithApiAccessor.renameDirectory`. -/
def MeowithApiAccessor.renameDirectory (t : Transport Unit) (resource : Resource)
    («to» : String) : Result Unit :=
  match t (renameDirectoryRequest resource «to») with
  | .ok _ => (none, none)
  | .error e => handleError e

/-- Request of `deleteFile`. -/
def deleteFileRequest (resource : Resource) : HttpRequest :=
  { method := "DELETE"
  , url := "/api/file/delete/" ++ resource.appId ++ "/" ++ resource.bucketId ++ "/" ++ resource.path
  , headers := []
  , body := .empty }

/-- api-access.ts, `MeowithApiAccessor.deleteFile`. -/
def MeowithApiAccessor.deleteFile (t : Transport Unit) (resource : Resource) : Result Unit :=
  match t (deleteFileRequest resource) with
  | .ok _ => (none, none)
  | .error e => handleError e

/-- Request of `deleteDirectory`: DELETE with JSON body carrying the
recursive flag.  `recursive = none` models the flag being `undefined` (as
when the caller omits the argument), in which case JSON serialization drops
the field from the body. -/
def deleteDirectoryRequest (resource : Resource) (recursive : Option Bool) : HttpRequest :=
  { method := "DELETE"
  , url := "/api/directory/delete/" ++ resource.appId ++ "/" ++ resource.bucketId ++ "/" ++ resource.path
  , headers := []
  , body := .json (match recursive with | some b => [("recursive", JsonVal.bool b)] | none => []) }

/-- api-access.ts, `MeowithApiAccessor.deleteDirectory`. -/
def MeowithApiAccessor.deleteDirectory (t : Transport Unit) (resource : Resource)
    (recursive : Option Bool) : Result Unit :=
  match t (deleteDirectoryRequest resource recursive) with
  | .ok _ => (none, none)
  | .error e => handleError e

/-- Request of `createDirectory`. -/
def createDirectoryRequest (resource : Resource) : HttpRequest :=
  { method := "POST"
  , url := "/api/directory/create/" ++ resource.appId ++ "/" ++ resource.bucketId ++ "/" ++ resource.path
  , headers := []
  , body := .empty }

/-- api-access.ts, `MeowithApiAccessor.createDirectory`. -/
def MeowithApiAccessor.createDirectory (t : Transport Unit) (resource : Resource) : Result Unit :=
  match t (createDirectoryRequest resource) with
  | .ok _ => (none, none)
  | .error e => handleError e

/-- Request of `listBucketFiles`: GET with the pagination query appended. -/
def listBucketFilesRequest (bucketId : BucketId) (paginate : Option Range) : HttpRequest :=
  { method := "GET"
  , url := "/api/bucket/list/files/" ++ bucketId.appId ++ "/" ++ bucketId.bucketId
      ++ constructPaginationQuery paginate
  , headers := []
  , body := .empty }

/-- api-access.ts, `MeowithApiAccessor.listBucketFiles`: map the wire
entities elementwise through the timestamp normalization. -/
def MeowithApiAccessor.listBucketFiles (t : Transport RawEntityList) (bucketId : BucketId)
    (paginate : Option Range) : Result (List Entity) :=
  match t (listBucketFilesRequest bucketId paginate) with
  | .ok resp => (some (resp.data.entities.map convertEntity), none)
  | .error e => handleError e

/-- Request of `listDirectory`. -/
def listDirectoryRequest (resource : Resource) (paginate : Option Range) : HttpRequest :=
  { method := "GET"
  , url := "/api/directory/list/" ++ resource.appId ++ "/" ++ resource.bucketId ++ "/" ++ resource.path
      ++ constructPaginationQuery paginate
  , headers := []
  , body := .empty }

/-- api-access.ts, `MeowithApiAccessor.listDirectory`. -/
def MeowithApiAccessor.listDirectory (t : Transport RawEntityList) (resource : Resource)
    (paginate : Option Range) : Result (List Entity) :=
  match t (listDirectoryRequest resource paginate) with
  | .ok resp => (some (resp.data.entities.map convertEntity), none)
  | .error e => handleError e

/-- connector.ts, `MeowithConnectorConfiguration`. -/
structure MeowithConnectorConfiguration where
  apiToken : String
  appId : String
  bucketId : String
  nodeAddress : String
  useSsl : Bool
  deriving DecidableEq, Repr

/-- connector.ts, `MeowithConnector.getResource`: pair the bound
application and bucket identifiers with the caller-supplied path. -/
def MeowithConnector.getResource (config : MeowithConnectorConfiguration)
    (path : String) : Resource :=
  { appId := config.appId, bucketId := config.bucketId, path := path }

/-- connector.ts, `MeowithConnector.downloadFile`. -/
def MeowithConnector.downloadFile (config : MeowithConnectorConfiguration)
    (t : Transport StreamData) (path : String) (range : Option Range) : Result FileEntity :=
  MeowithApiAccessor.downloadFile t (MeowithConnector.getResource config path) range

/-- connector.ts, `MeowithConnector.uploadFile`. -/
def MeowithConnector.uploadFile (config : MeowithConnectorConfiguration)
    (t : Transport Unit) (path : String) (data : StreamData) (size : Nat) : Result Unit :=
  MeowithApiAccessor.uploadFile t (MeowithConnector.getResource config path) data size

/-- connector.ts, `MeowithConnector.deleteDirectory`: the source invokes the
two-argument accessor method with a single argument, so the accessor's
`recursive` parameter is `undefined` at runtime — modelled by passing
`none`. -/
def MeowithConnector.deleteDirectory (config : MeowithConnectorConfiguration)
    (t : Transport Unit) (path : String) : Result Unit :=
  MeowithApiAccessor.deleteDirectory t (MeowithConnector.getResource config path) none

/-- connector.ts, `MeowithConnector.listBucketFiles` (the accessor receives
the bucket-id part of the empty-path resource). -/
def MeowithConnector.listBucketFiles (config : MeowithConnectorConfiguration)
    (t : Transport RawEntityList) (pagination : Option Range) : Result (List Entity) :=
  MeowithApiAccessor.listBucketFiles t (MeowithConnector.getResource config "").toBucketId pagination

/-- connector.ts, `MeowithConnector.listDirectory`. -/
def MeowithConnector.listDirectory (config : MeowithConnectorConfiguration)
    (t : Transport RawEntityList) (path : String) (pagination : Option Range) : Result (List Entity) :=
  MeowithApiAccessor.listDirectory t (MeowithConnector.getResource config path) pagination

/-! Concrete fixtures used by witnesses and counterexamples. -/

/-- A sample resource. -/
def sampleResource : Resource := { appId := "app1", bucketId := "bkt1", path := "docs/a.txt" }

/-- A sample bucket identifier. -/
def sampleBucketId : BucketId := { appId := "app1", bucketId := "bkt1" }

/-- A transport whose every exchange succeeds with an empty streamed body. -/
def okStreamTransport : Transport StreamData := fun _ => .ok { headers := [], data := "" }

/-- A transport whose every exchange succeeds with no payload. -/
def okUnitTransport : Transport Unit := fun _ => .ok { headers := [], data := () }

/-! Claim theorems. -/

/-- C1: header-range serialization — a Range with both fields serializes to
exactly bytes=start-end, start-only to bytes=start-, end-only to bytes=-end,
and a Range with neither field is rejected with the invalid-argument error. -/
theorem C1_rangeHeader_serialization (s e : Nat) :
    constructRangeHeader { start := some s, stop := some e }
      = Except.ok ("bytes=" ++ toString s ++ "-" ++ toString e)
    ∧ constructRangeHeader { start := some s, stop := none }
      = Except.ok ("bytes=" ++ toString s ++ "-")
    ∧ constructRangeHeader { start := none, stop := some e }
      = Except.ok ("bytes=-" ++ toString e)
    ∧ constructRangeHeader { start := none, stop := none }
      = Except.error "Invalid range object" :=
  ⟨rfl, rfl, rfl, rfl⟩

/-- C3: pagination-query serialization — a closed range gives
?start=S&end=E, start-only gives ?start=S- with a literal trailing hyphen,
end-only gives ?end=E, and both the absent range and the range with neither
field give the empty string. -/
theorem C3_paginationQuery_serialization (s e : Nat) :
    constructPaginationQuery (some { start := some s, stop := some e })
      = "?start=" ++ toString s ++ "&end=" ++ toString e
    ∧ constructPaginationQuery (some { start := some s, stop := none })
      = "?start=" ++ toString s ++ "-"
    ∧ constructPaginationQuery (some { start := none, stop := some e })
      = "?end=" ++ toString e
    ∧ constructPaginationQuery none = ""
    ∧ constructPaginationQuery (some { start := none, stop := none }) = "" :=
  ⟨rfl, rfl, rfl, rfl, rfl⟩

/-- C2 is false as stated: an axios failure whose response body carries the
unrecognized code "Bogus" is surfaced verbatim as the error kind instead of
collapsing to the local-internal-error kind the claim demands. -/
theorem C2_counterexample_unrecognized_code :
    ((handleError (TransportError.axios ⟨"request failed", some ⟨some ⟨some "Bogus"⟩⟩⟩)
        : Result Unit)).2
      = some (mkConnectorError "Bogus"
          (TransportError.axios ⟨"request failed", some ⟨some ⟨some "Bogus"⟩⟩⟩))
    ∧ ¬ "Bogus" ∈ nodeClientErrorValues
    ∧ ¬ (mkConnectorError "Bogus"
          (TransportError.axios ⟨"request failed", some ⟨some ⟨some "Bogus"⟩⟩⟩)).apiError
        = "LocalInternalError" :=
  ⟨rfl, by decide, by decide⟩

/-- C2 (amended): an axios failure with a truthy response body whose code
field is a truthy string yields (no value, that code surfaced verbatim as
the error kind, recognized or not); every other failure — axios with no
response, axios with a falsy body, axios body without a truthy code, or a
non-axios throw — yields (no value, the local-internal-error kind); in every
case the original failure is wrapped in the resulting ConnectorError. -/
theorem C2_handleError_classification :
    (∀ (m c : String), ¬ c = "" →
      (handleError (TransportError.axios ⟨m, some ⟨some ⟨some c⟩⟩⟩) : Result Unit)
        = (none, some (mkConnectorError c (TransportError.axios ⟨m, some ⟨some ⟨some c⟩⟩⟩))))
    ∧ (∀ m : String,
      (handleError (TransportError.axios ⟨m, some ⟨some ⟨some ""⟩⟩⟩) : Result Unit)
        = (none, some (mkConnectorError "LocalInternalError"
            (TransportError.axios ⟨m, some ⟨some ⟨some ""⟩⟩⟩))))
    ∧ (∀ m : String,
      (handleError (TransportError.axios ⟨m, some ⟨some ⟨none⟩⟩⟩) : Result Unit)
        = (none, some (mkConnectorError "LocalInternalError"
            (TransportError.axios ⟨m, some ⟨some ⟨none⟩⟩⟩))))
    ∧ (∀ m : String,
      (handleError (TransportError.axios ⟨m, some ⟨none⟩⟩) : Result Unit)
        = (none, some (mkConnectorError "LocalInternalError"
            (TransportError.axios ⟨m, some ⟨none⟩⟩))))
    ∧ (∀ m : String,
      (handleError (TransportError.axios ⟨m, none⟩) : Result Unit)
        = (none, some (mkConnectorError "LocalInternalError"
            (TransportError.axios ⟨m, none⟩))))
    ∧ (∀ m : String,
      (handleError (TransportError.basic m) : Result Unit)
        = (none, some (mkConnectorError "LocalInternalError" (TransportError.basic m)))) := by
  refine ⟨?_, fun m => rfl, fun m => rfl, fun m => rfl, fun m => rfl, fun m => rfl⟩
  intro m c hc
  simp only [handleError, if_neg hc]

/-- Witness for C2: a failure whose response body carries the recognized
code NotFound yields (no value, error kind NotFound). -/
theorem C2_witness :
    (handleError (TransportError.axios ⟨"request failed", some ⟨some ⟨some "NotFound"⟩⟩⟩)
        : Result Unit)
      = (none, some (mkConnectorError "NotFound"
          (TransportError.axios ⟨"request failed", some ⟨some ⟨some "NotFound"⟩⟩⟩))) :=
  C2_handleError_classification.1 "request failed" "NotFound" (by decide)

/-- C4 (code bug): the connector's deleteDirectory invokes the accessor's
two-argument deleteDirectory without the recursive flag, so the accessor
receives `undefined` and the request body carries no recursive field — the
caller-supplied argument list cannot reach the accessor unchanged, while a
direct accessor call with an explicit flag does put the field in the body. -/
theorem C4_connector_deleteDirectory_drops_flag
    (config : MeowithConnectorConfiguration) (t : Transport Unit) (path : String) (b : Bool) :
    MeowithConnector.deleteDirectory config t path
      = MeowithApiAccessor.deleteDirectory t (MeowithConnector.getResource config path) none
    ∧ (deleteDirectoryRequest (MeowithConnector.getResource config path) none).body
      = ReqBody.json []
    ∧ (deleteDirectoryRequest (MeowithConnector.getResource config path) (some b)).body
      = ReqBody.json [("recursive", JsonVal.bool b)]
    ∧ ¬ (ReqBody.json [] = ReqBody.json [("recursive", JsonVal.bool b)]) :=
  ⟨rfl, rfl, rfl, by simp⟩

/-- C5 is false as stated: downloadFile called with a range object that has
neither field does not raise across the public boundary — the throw from
header construction is caught by its try/catch and the call returns the
(no value, LocalInternalError) result. -/
theorem C5_counterexample_downloadFile_returns :
    MeowithApiAccessor.downloadFile okStreamTransport sampleResource
        (some { start := none, stop := none })
      = (none, some (mkConnectorError "LocalInternalError"
          (TransportError.basic "Invalid range object"))) :=
  rfl

/-- C5 (amended): every modelled operation returns a discriminated result
value and none throws across the public boundary; in particular the
invalid-argument throw that constructRangeHeader raises on a range with
neither field happens inside downloadFile's try block, so both the accessor
and the connector downloadFile return (no value, local-internal-error kind
wrapping that throw) instead of raising — whatever the transport does. -/
theorem C5_downloadFile_malformed_range
    (t : Transport StreamData) (r : Resource)
    (config : MeowithConnectorConfiguration) (path : String) :
    constructRangeHeader { start := none, stop := none }
      = Except.error "Invalid range object"
    ∧ MeowithApiAccessor.downloadFile t r (some { start := none, stop := none })
      = (none, some (mkConnectorError "LocalInternalError"
          (TransportError.basic "Invalid range object")))
    ∧ MeowithConnector.downloadFile config t path (some { start := none, stop := none })
      = (none, some (mkConnectorError "LocalInternalError"
          (TransportError.basic "Invalid range object"))) :=
  ⟨rfl, rfl, rfl⟩

/-- C6: the accessor's deleteDirectory puts the caller's recursive flag in
the request body unmodified, and when the server rejects the call with an
error body carrying code NotEmpty the result is (no value, error kind
NotEmpty). -/
theorem C6_deleteDirectory_flag_and_notEmpty
    (t : Transport Unit) (r : Resource) (b : Bool) (m : String)
    (h : t (deleteDirectoryRequest r (some b))
      = Except.error (TransportError.axios ⟨m, some ⟨some ⟨some "NotEmpty"⟩⟩⟩)) :
    (deleteDirectoryRequest r (some b)).body = ReqBody.json [("recursive", JsonVal.bool b)]
    ∧ MeowithApiAccessor.deleteDirectory t r (some b)
      = (none, some (mkConnectorError "NotEmpty"
          (TransportError.axios ⟨m, some ⟨some ⟨some "NotEmpty"⟩⟩⟩))) := by
  refine ⟨rfl, ?_⟩
  unfold MeowithApiAccessor.deleteDirectory
  rw [h]
  rfl

/-- A transport on which every exchange is rejected with a NotEmpty error
body, as the server answers a non-recursive delete of a non-empty
directory. -/
def notEmptyTransport : Transport Unit :=
  fun _ => .error (TransportError.axios ⟨"request failed", some ⟨some ⟨some "NotEmpty"⟩⟩⟩)

/-- Witness for C6: a concrete recursive=false delete against the NotEmpty
transport. -/
theorem C6_witness :
    (deleteDirectoryRequest sampleResource (some false)).body
      = ReqBody.json [("recursive", JsonVal.bool false)]
    ∧ MeowithApiAccessor.deleteDirectory notEmptyTransport sampleResource (some false)
      = (none, some (mkConnectorError "NotEmpty"
          (TransportError.axios ⟨"request failed", some ⟨some ⟨some "NotEmpty"⟩⟩⟩))) :=
  C6_deleteDirectory_flag_and_notEmpty notEmptyTransport sampleResource false "request failed" rfl

/-- C7: on a successful download response, the returned file entity has the
integer parsed from Content-Length as size, the filename captured from
Content-Disposition as name, the Content-Type value as mime, and the
response body stream as content. -/
theorem C7_downloadFile_header_parsing
    (t : Transport StreamData) (r : Resource) (resp : HttpResponse StreamData)
    (cl cd ct nm : String)
    (h : t (downloadFileRequest r none) = Except.ok resp)
    (hcl : resp.headers.lookup "Content-Length" = some cl)
    (hcd : resp.headers.lookup "Content-Disposition" = some cd)
    (hct : resp.headers.lookup "Content-Type" = some ct)
    (hnm : matchFilename cd = some nm) :
    MeowithApiAccessor.downloadFile t r none
      = (some { size := parseIntJs cl, name := nm, mime := some ct, content := resp.data }
        , none) := by
  unfold MeowithApiAccessor.downloadFile downloadFileAttempt downloadFileFetch
  simp only [h, hcd, hnm, hcl, hct]

/-- The response headers of the concrete download example of C7. -/
def downloadHeaders42 : List (String × String) :=
  [ ("Content-Length", "42")
  , ("Content-Disposition", "attachment; filename=\"a.txt\"")
  , ("Content-Type", "text/plain") ]

/-- A transport answering every exchange with the concrete download example
response of C7. -/
def download42Transport : Transport StreamData :=
  fun _ => .ok { headers := downloadHeaders42, data := "FILEBYTES" }

/-- Witness for C7: headers Content-Length 42, Content-Disposition
attachment with filename a.txt, Content-Type text/plain give size 42, name
a.txt, mime text/plain, and the body stream as content. -/
theorem C7_witness :
    MeowithApiAccessor.downloadFile download42Transport sampleResource none
      = (some { size := some 42, name := "a.txt", mime := some "text/plain"
              , content := "FILEBYTES" }, none) := by
  have h := C7_downloadFile_header_parsing download42Transport sampleResource
    { headers := downloadHeaders42, data := "FILEBYTES" }
    "42" "attachment; filename=\"a.txt\"" "text/plain" "a.txt" rfl rfl rfl rfl rfl
  exact h

/-- C8: listBucketFiles and listDirectory return one client entity per wire
entity, in the server-provided order with neither reordering nor
deduplication (elementwise image of the wire list), and each client
entity's created and last_modified are the Date values of the wire entity's
ISO timestamp strings. -/
theorem C8_list_order_and_dates
    (tf td : Transport RawEntityList) (bucketId : BucketId) (r : Resource)
    (pagF pagD : Option Range) (respF respD : HttpResponse RawEntityList)
    (hF : tf (listBucketFilesRequest bucketId pagF) = Except.ok respF)
    (hD : td (listDirectoryRequest r pagD) = Except.ok respD) :
    MeowithApiAccessor.listBucketFiles tf bucketId pagF
      = (some (respF.data.entities.map convertEntity), none)
    ∧ MeowithApiAccessor.listDirectory td r pagD
      = (some (respD.data.entities.map convertEntity), none)
    ∧ (∀ l : List RawEntity, (l.map convertEntity).length = l.length)
    ∧ (∀ (l : List RawEntity) (i : Nat) (h1 : i < (l.map convertEntity).length)
        (h2 : i < l.length),
        (l.map convertEntity).get ⟨i, h1⟩ = convertEntity (l.get ⟨i, h2⟩))
    ∧ (∀ x : RawEntity,
        (convertEntity x).created = newDate x.created
        ∧ (convertEntity x).last_modified = newDate x.last_modified) := by
  refine ⟨?_, ?_, fun l => l.length_map convertEntity, ?_, fun x => ⟨rfl, rfl⟩⟩
  · unfold MeowithApiAccessor.listBucketFiles
    rw [hF]
  · unfold MeowithApiAccessor.listDirectory
    rw [hD]
  · intro l i h1 h2
    simp [List.get_eq_getElem, List.getElem_map]

/-- First wire entity of the C8 witness. -/
def rawA : RawEntity :=
  { name := "b.txt", dir := none, dir_id := none, size := 5, is_dir := false
  , created := "2024-05-15T10:00:00Z", last_modified := "2024-05-15T10:00:00Z" }

/-- Second wire entity of the C8 witness: sorts before rawA by name, so an
output in server order shows no client-side reordering. -/
def rawB : RawEntity :=
  { name := "a.txt", dir := some "d1", dir_id := none, size := 7, is_dir := false
  , created := "2023-01-02T03:04:05Z", last_modified := "2024-02-29T23:59:59Z" }

/-- A transport answering every exchange with the wire list
[rawA, rawB, rawA]; the duplicate shows no client-side deduplication. -/
def entityListTransport : Transport RawEntityList :=
  fun _ => .ok { headers := [], data := { entities := [rawA, rawB, rawA] } }

/-- Witness for C8: the concrete three-element wire list (unsorted, with a
duplicate) comes back converted elementwise in the same order from both
list operations, and the first date value is the expected epoch instant of
its ISO string (2024-05-15T10:00:00Z, in milliseconds). -/
theorem C8_witness :
    MeowithApiAccessor.listBucketFiles entityListTransport sampleBucketId none
      = (some [convertEntity rawA, convertEntity rawB, convertEntity rawA], none)
    ∧ MeowithApiAccessor.listDirectory entityListTransport sampleResource none
      = (some [convertEntity rawA, convertEntity rawB, convertEntity rawA], none)
    ∧ (convertEntity rawA).created = some 1715767200000 := by
  have h := C8_list_order_and_dates entityListTransport entityListTransport
    sampleBucketId sampleResource none none
    { headers := [], data := { entities := [rawA, rawB, rawA] } }
    { headers := [], data := { entities := [rawA, rawB, rawA] } } rfl rfl
  exact ⟨h.1, h.2.1, by decide⟩

/-- A transport whose every exchange succeeds with a session-info body
reporting seven bytes already uploaded. -/
def session7Transport : Transport UploadSessionInfo :=
  fun _ => .ok { headers := []
               , data := { code := "sess-1", validity := 3600, uploaded := 7 } }

/-- C9 is false as stated: the client returns the server-provided session
info verbatim, so a successful startUploadSession against a server that
reports seven uploaded bytes carries 7, not 0, in the success slot. -/
theorem C9_counterexample_nonzero_uploaded :
    MeowithApiAccessor.startUploadSession session7Transport sampleResource 100
      = (some { code := "sess-1", validity := 3600, uploaded := 7 }, none)
    ∧ ¬ (some { code := "sess-1", validity := 3600, uploaded := 7 }
          : Option UploadSessionInfo).map UploadSessionInfo.uploaded = some 0 :=
  ⟨rfl, by decide⟩

/-- C9 (amended): a successful startUploadSession returns the server's
response body verbatim as the session info — carrying whatever code,
validity and uploaded-byte count the server sent; in particular it carries
an uploaded-byte count of 0 exactly when the server reports 0. -/
theorem C9_startUploadSession_verbatim
    (t : Transport UploadSessionInfo) (r : Resource) (size : Nat)
    (resp : HttpResponse UploadSessionInfo)
    (h : t (startUploadSessionRequest r size) = Except.ok resp) :
    MeowithApiAccessor.startUploadSession t r size = (some resp.data, none) := by
  unfold MeowithApiAccessor.startUploadSession
  rw [h]

/-- A transport whose every exchange succeeds with a fresh session-info
body: zero bytes uploaded. -/
def session0Transport : Transport UploadSessionInfo :=
  fun _ => .ok { headers := []
               , data := { code := "sess-0", validity := 3600, uploaded := 0 } }

/-- Witness for C9: against a server reporting a fresh session, the result
carries the session code, the validity and an uploaded-byte count of 0. -/
theorem C9_witness :
    MeowithApiAccessor.startUploadSession session0Transport sampleResource 100
      = (some { code := "sess-0", validity := 3600, uploaded := 0 }, none) :=
  C9_startUploadSession_verbatim session0Transport sampleResource 100
    { headers := [], data := { code := "sess-0", validity := 3600, uploaded := 0 } } rfl

/-- C10: each of the seven payload-less operations keeps `undefined` in the
value slot on every outcome — so only the error slot distinguishes success
from failure — and returns exactly the pair (undefined, undefined) whenever
its exchange succeeds. -/
theorem C10_void_ops_result_shape
    (tu : Transport Unit) (r : Resource) (bId : BucketId) (session : UploadSessionInfo)
    (data : StreamData) (size : Nat) («to» : String) (recursive : Option Bool) :
    ((MeowithApiAccessor.uploadFile tu r data size).1 = none
    ∧ (MeowithApiAccessor.putFile tu bId session data).1 = none
    ∧ (MeowithApiAccessor.renameFile tu r «to»).1 = none
    ∧ (MeowithApiAccessor.renameDirectory tu r «to»).1 = none
    ∧ (MeowithApiAccessor.deleteFile tu r).1 = none
    ∧ (MeowithApiAccessor.deleteDirectory tu r recursive).1 = none
    ∧ (MeowithApiAccessor.createDirectory tu r).1 = none)
    ∧ ((∀ resp, tu (uploadFileRequest r data size) = Except.ok resp →
        MeowithApiAccessor.uploadFile tu r data size = (none, none))
    ∧ (∀ resp, tu (putFileRequest bId session data) = Except.ok resp →
        MeowithApiAccessor.putFile tu bId session data = (none, none))
    ∧ (∀ resp, tu (renameFileRequest r «to») = Except.ok resp →
        MeowithApiAccessor.renameFile tu r «to» = (none, none))
    ∧ (∀ resp, tu (renameDirectoryRequest r «to») = Except.ok resp →
        MeowithApiAccessor.renameDirectory tu r «to» = (none, none))
    ∧ (∀ resp, tu (deleteFileRequest r) = Except.ok resp →
        MeowithApiAccessor.deleteFile tu r = (none, none))
    ∧ (∀ resp, tu (deleteDirectoryRequest r recursive) = Except.ok resp →
        MeowithApiAccessor.deleteDirectory tu r recursive = (none, none))
    ∧ (∀ resp, tu (createDirectoryRequest r) = Except.ok resp →
        MeowithApiAccessor.createDirectory tu r = (none, none))) := by
  constructor
  · refine ⟨?_, ?_, ?_, ?_, ?_, ?_, ?_⟩
    · unfold MeowithApiAccessor.uploadFile
      cases h : tu (uploadFileRequest r data size) with
      | ok _ => rfl
      | error e => exact handleError_fst e
    · unfold MeowithApiAccessor.putFile
      cases h : tu (putFileRequest bId session data) with
      | ok _ => rfl
      | error e => exact handleError_fst e
    · unfold MeowithApiAccessor.renameFile
      cases h : tu (renameFileRequest r «to») with
      | ok _ => rfl
      | error e => exact handleError_fst e
    · unfold MeowithApiAccessor.renameDirectory
      cases h : tu (renameDirectoryRequest r «to») with
      | ok _ => rfl
      | error e => exact handleError_fst e
    · unfold MeowithApiAccessor.deleteFile
      cases h : tu (deleteFileRequest r) with
      | ok _ => rfl
      | error e => exact handleError_fst e
    · unfold MeowithApiAccessor.deleteDirectory
      cases h : tu (deleteDirectoryRequest r recursive) with
      | ok _ => rfl
      | error e => exact handleError_fst e
    · unfold MeowithApiAccessor.createDirectory
      cases h : tu (createDirectoryRequest r) with
      | ok _ => rfl
      | error e => exact handleError_fst e
  · refine ⟨?_, ?_, ?_, ?_, ?_, ?_, ?_⟩ <;> intro resp h
    · unfold MeowithApiAccessor.uploadFile
      rw [h]
    · unfold MeowithApiAccessor.putFile
      rw [h]
    · unfold MeowithApiAccessor.renameFile
      rw [h]
    · unfold MeowithApiAccessor.renameDirectory
      rw [h]
    · unfold MeowithApiAccessor.deleteFile
      rw [h]
    · unfold MeowithApiAccessor.deleteDirectory
      rw [h]
    · unfold MeowithApiAccessor.createDirectory
      rw [h]

/-- A sample upload session. -/
def sampleSession : UploadSessionInfo := { code := "sess-1", validity := 3600, uploaded := 0 }

/-- Witness for C10: each of the seven payload-less operations, run against
the always-succeeding transport, returns the pair (undefined, undefined). -/
theorem C10_witness :
    MeowithApiAccessor.uploadFile okUnitTransport sampleResource "payload" 7 = (none, none)
    ∧ MeowithApiAccessor.putFile okUnitTransport sampleBucketId sampleSession "payload" = (none, none)
    ∧ MeowithApiAccessor.renameFile okUnitTransport sampleResource "new.txt" = (none, none)
    ∧ MeowithApiAccessor.renameDirectory okUnitTransport sampleResource "new.txt" = (none, none)
    ∧ MeowithApiAccessor.deleteFile okUnitTransport sampleResource = (none, none)
    ∧ MeowithApiAccessor.deleteDirectory okUnitTransport sampleResource (some true) = (none, none)
    ∧ MeowithApiAccessor.createDirectory okUnitTransport sampleResource = (none, none) := by
  have h := C10_void_ops_result_shape okUnitTransport sampleResource sampleBucketId
    sampleSession "payload" 7 "new.txt" (some true)
  obtain ⟨-, b1, b2, b3, b4, b5, b6, b7⟩ := h
  exact ⟨b1 _ rfl, b2 _ rfl, b3 _ rfl, b4 _ rfl, b5 _ rfl, b6 _ rfl, b7 _ rfl⟩

end Meowith
